import Mathlib

/-!
Verification of the Primer RC6-constant generator core.

A shallow embedding, in Lean 4, of the candidate generation-and-validation
engine of the Primer repository (package `constants`): the Miller-Rabin
prime sampler, the Shannon-entropy and statistical scoring functions, the
candidate validator, the pair selector, and the orchestration of a
generation run.

The Go `uint32`/`uint64` arithmetic is modelled on `Nat` with explicit
`% 2 ^ 32` / `% 2 ^ 64` reductions at every operation where the Go code can
wrap.  Go `float64` quantities are modelled on `ℝ`.  Go `int` counters that
the configuration carries are modelled on `ℤ`.  Durations, timestamps, the
wall-clock timeout, log output and the diagnostic `Details` strings of test
results are not modelled.  Sources of randomness (the sampled candidate
value and the randomized avalanche trials) are passed in as explicit
parameters.  A Go `panic` is modelled by returning `none` from the
function that panics.
-/

namespace Primer

/-! ## Bit-level helpers (Go `math/bits` on `uint32` values) -/

/-- Go `bits.OnesCount32`: the number of set bits among the 32 low bits. -/
def ones32 (v : Nat) : Nat :=
  (List.range 32).countP fun i => v.testBit i

/-- Go `uint32` left shift: `v << k` wraps modulo `2^32`. -/
def shiftl32 (v k : Nat) : Nat :=
  (v <<< k) % 2 ^ 32

/-- Go `uint32` bit rotation left by `k` (for `1 ≤ k ≤ 31`). -/
def rotl32 (v k : Nat) : Nat :=
  (v <<< k) % 2 ^ 32 ||| v >>> (32 - k)

/-- Go `uint32` bit rotation right by `k` (for `1 ≤ k ≤ 31`). -/
def rotr32 (v k : Nat) : Nat :=
  v >>> k ||| (v <<< (32 - k)) % 2 ^ 32

/-! ## Prime sampler (`generator.go`: `modPow`, `millerRabinTest`, `isPrime`)

`modPow` runs its square-and-multiply loop in `uint64`, so each product is
reduced `% 2 ^ 64` (the Go wrap point) before the `% m` reduction, and the
final value is truncated back to `uint32`.  The loop `for e > 0` halves `e`
each iteration, so `e` itself is a sufficient fuel for a structural
recursion.  The `mod == 0` panic guard is modelled by `Option`. -/

def modPowLoop : Nat → Nat → Nat → Nat → Nat → Nat
  | 0, _, _, acc, _ => acc
  | fuel + 1, b, e, acc, m =>
    if e = 0 then acc
    else
      let acc' := if e % 2 = 1 then acc * b % 2 ^ 64 % m else acc
      modPowLoop fuel (b * b % 2 ^ 64 % m) (e / 2) acc' m

/-- Go `modPow(base, exp, m)`; `none` models the `panic("modulus cannot be zero")`. -/
def modPow (base exp m : Nat) : Option Nat :=
  if m = 0 then none
  else some (modPowLoop exp (base % m) exp 1 m % 2 ^ 32)

/-- The repeated-squaring loop of `millerRabinTest`, run `r - 1` times.
In the Go source `x` is a `uint32`, so the square `x * x` wraps modulo
`2 ^ 32` *before* the reduction `% n` — unlike `modPow`, this loop has no
64-bit intermediate. -/
def squaringLoop : Nat → Nat → Nat → Bool
  | _, 0, _ => false
  | n, j + 1, x =>
    let x' := x * x % 2 ^ 32 % n
    if x' = n - 1 then true
    else if x' = 1 then false
    else squaringLoop n j x'

/-- Go `millerRabinTest(n, d, r, a)`; `none` models a propagated `modPow` panic. -/
def millerRabinTest (n d r a : Nat) : Option Bool :=
  if n = a then some true
  else
    match modPow a d n with
    | none => none
    | some x =>
      if x = 1 ∨ x = n - 1 then some true
      else some (squaringLoop n (r - 1) x)

/-- The `for d%2 == 0 { d /= 2; r++ }` decomposition `n - 1 = d * 2 ^ r`,
given enough fuel (the initial `d` is itself sufficient). -/
def oddFactor : Nat → Nat → Nat × Nat
  | 0, d => (d, 0)
  | fuel + 1, d =>
    if d % 2 = 0 then
      let p := oddFactor fuel (d / 2)
      (p.1, p.2 + 1)
    else (d, 0)

/-- The `for _, a := range bases` loop of `isPrime`: every base must accept. -/
def mrBases (n d r : Nat) : List Nat → Option Bool
  | [] => some true
  | a :: rest =>
    match millerRabinTest n d r a with
    | none => none
    | some false => some false
    | some true => mrBases n d r rest

/-- Go `isPrime(n)` with the fixed witness set `{2, 7, 61}` and the explicit
boundary cases `n ≤ 1`, `n == 4` (composite) and `n ≤ 3` (prime);
`none` models a propagated panic. -/
def isPrime (n : Nat) : Option Bool :=
  if n ≤ 1 ∨ n = 4 then some false
  else if n ≤ 3 then some true
  else
    let p := oddFactor (n - 1) (n - 1)
    mrBases n p.1 p.2 [2, 7, 61]

/-! ## Data model (`types.go` equivalents used by the core)

Time-valued fields (`TestDuration`, `GenerationTime`, `Duration`, …) and
diagnostic strings (`Details`) are not modelled. -/

/-- One entry of `TestResults.PrimalityTests`. -/
structure PrimalityTest where
  method : String
  passed : Bool

/-- One entry of `TestResults.AvalancheTests` (`Duration` not modelled). -/
structure AvalancheTest where
  score : ℝ
  changes : ℤ
  total : ℤ

/-- One entry of `TestResults.StatisticalTests` (`Details` not modelled).
The pass criterion compares `float64` values, modelled as a proposition
over `ℝ`. -/
structure StatisticalTest where
  name : String
  score : ℝ
  passed : Prop

/-- One entry of `TestResults.WeakKeyTests`. -/
structure WeakKeyTest where
  pattern : String
  passed : Bool

/-- Go `TestResults`. -/
structure TestResults where
  primalityTests : List PrimalityTest
  avalancheTests : List AvalancheTest
  statisticalTests : List StatisticalTest
  weakKeyTests : List WeakKeyTest

/-- Go `ConstantCandidate` (time fields not modelled). -/
structure ConstantCandidate where
  value : Nat
  bitDistribution : ℝ
  avalancheScore : ℝ
  hammingWeight : Nat
  entropyScore : ℝ
  testResults : TestResults

/-- Go `Config` (the `ResultsFile` path and `DetailedLogging` flag only drive
I/O and logging and are not modelled). -/
structure Config where
  numCandidates : ℤ
  avalancheTestCases : ℤ
  minPrimeAttempts : ℤ
  maxPrimeAttempts : ℤ
  parallelWorkers : ℤ
  minBitDistribution : ℝ
  maxBitDistribution : ℝ
  minAvalancheScore : ℝ
  statisticalAnalysis : Bool

/-- The conditions under which `ValidateConfig` (config.go) returns `nil`:
it errors on `NumCandidates < 1`, `ParallelWorkers < 1`,
`MinBitDistribution >= MaxBitDistribution`, and an avalanche threshold
outside `[0, 1]`. -/
def configValid (cfg : Config) : Prop :=
  1 ≤ cfg.numCandidates ∧ 1 ≤ cfg.parallelWorkers ∧
  cfg.minBitDistribution < cfg.maxBitDistribution ∧
  0 ≤ cfg.minAvalancheScore ∧ cfg.minAvalancheScore ≤ 1

/-! ## Entropy and scoring (`statistical.go`: `calculateEntropy`;
`generator.go`: `calculateBitDistribution`, `calculateScore`) -/

/-- Go `calculateEntropy`: Shannon entropy (base 2) of the two bit-value
frequencies among the 32 bits.  The Go map `counts` holds the key `true`
exactly when some bit is set (`0 < k`) and the key `false` exactly when
some bit is clear (`k < 32`); each present count is positive, so the inner
`p > 0` guard always holds.  Since `k ≤ 32`, the real subtraction
`32 - k` agrees with the Go integer count of zero bits. -/
noncomputable def calculateEntropy (value : Nat) : ℝ :=
  (if 0 < ones32 value then
    -(((ones32 value : ℝ)) / 32 * Real.logb 2 ((ones32 value : ℝ) / 32))
  else 0) +
  (if ones32 value < 32 then
    -((32 - (ones32 value : ℝ)) / 32 * Real.logb 2 ((32 - (ones32 value : ℝ)) / 32))
  else 0)

/-- Go `calculateBitDistribution`: fraction of set bits. -/
noncomputable def calculateBitDistribution (n : Nat) : ℝ :=
  (ones32 n : ℝ) / 32

/-- Go `calculateScore`: the composite selector score
`(bitDistScore + 2·avalanche + 1.5·(entropy/2)) / 4.5`. -/
noncomputable def calculateScore (c : ConstantCandidate) : ℝ :=
  let bitDistScore := 1 - |0.5 - c.bitDistribution|
  (bitDistScore + 2 * c.avalancheScore + 1.5 * (c.entropyScore / 2)) /
    (1 + 2 + 1.5)

/-! ## Statistical test suite (`statistical.go`) -/

/-- Threshold `maxBitFrequencyDeviation = 0.15`. -/
noncomputable def maxBitFrequencyDeviation : ℝ := 0.15

/-- Threshold `minPValue = 0.01`. -/
noncomputable def minPValue : ℝ := 0.01

/-- Threshold `maxPValue = 0.99`. -/
noncomputable def maxPValue : ℝ := 0.99

/-- Threshold `minRunsZScore = -3.0`. -/
noncomputable def minRunsZScore : ℝ := -3.0

/-- Threshold `maxRunsZScore = 3.0`. -/
noncomputable def maxRunsZScore : ℝ := 3.0

/-- Threshold `maxSerialCorrelation = 0.5`. -/
noncomputable def maxSerialCorrelation : ℝ := 0.5

/-- Go `runBitFrequencyTest`: the frequency (monobit) test. -/
noncomputable def runBitFrequencyTest (value : Nat) : StatisticalTest :=
  let proportion : ℝ := (ones32 value : ℝ) / 32
  let deviation := |proportion - 0.5|
  { name := "Bit Frequency Test"
    score := 1 - deviation * 2
    passed := deviation ≤ maxBitFrequencyDeviation }

/-- The run counter of `runRunsTest`: starting from bit 0, each change of
bit value increments `runs`, and the final run is counted once more. -/
def countRuns (value : Nat) : Nat :=
  (((List.range' 1 31).foldl
    (fun st i =>
      let bit := value.testBit i
      if bit ≠ st.1 then (bit, st.2 + 1) else st)
    (value.testBit 0, 0)).2) + 1

/-- Go `runRunsTest`: the runs test, with expectation and variance derived
from the counts of ones and zeros. -/
noncomputable def runRunsTest (value : Nat) : StatisticalTest :=
  let runs := countRuns value
  let n1 := ones32 value
  let n0 := 32 - n1
  let expectedRuns : ℝ := 1 + 2 * (n0 : ℝ) * (n1 : ℝ) / 32
  let variance := (expectedRuns - 1) * (expectedRuns - 2) / 31
  let zScore := ((runs : ℝ) - expectedRuns) / Real.sqrt variance
  { name := "Runs Test"
    score := 1 - |zScore / 6|
    passed := minRunsZScore ≤ zScore ∧ zScore ≤ maxRunsZScore }

/-- The 2-bit pattern tally of `runSerialTest` over the 31 overlapping
windows. -/
def patternCount (value : Nat) (j : Nat) : Nat :=
  (List.range 31).countP fun i => (value >>> i) &&& 3 == j

/-- Go `runSerialTest`: chi-square over the four 2-bit pattern frequencies,
converted to an approximate p-value `1 - e^(-χ²/2)`. -/
noncomputable def runSerialTest (value : Nat) : StatisticalTest :=
  let expected : ℝ := 31 / 4
  let chiSquare : ℝ :=
    (((List.range 4).map
      fun j => ((patternCount value j : ℝ) - expected) ^ 2 / expected).sum)
  let pValue := 1 - Real.exp (-chiSquare / 2)
  { name := "Serial Test"
    score := 1 - |pValue - 0.5| * 2
    passed := minPValue ≤ pValue ∧ pValue ≤ maxPValue }

/-- Go `calculateAutocorrelation` for one shift value. -/
noncomputable def calculateAutocorrelation (value : Nat) (shift : Nat) : ℝ :=
  let total := 32 - shift
  let matchCount :=
    (List.range total).countP
      fun i => (value >>> i) &&& 1 == (value >>> (i + shift)) &&& 1
  |((matchCount : ℝ) / (total : ℝ)) - 0.5| * 2

/-- Go `runAutoCorrelationTest`: the maximum absolute autocorrelation over
shifts `1..15`. -/
noncomputable def runAutoCorrelationTest (value : Nat) : StatisticalTest :=
  let maxCorrelation :=
    ((List.range' 1 15).map fun shift => |calculateAutocorrelation value shift|).foldl
      max 0
  { name := "Autocorrelation Test"
    score := 1 - maxCorrelation
    passed := maxCorrelation ≤ maxSerialCorrelation }

/-! Berlekamp-Massey (`calculateLinearComplexity`). -/

/-- Bit `i` of the value as `0`/`1`, the `sequence` array. -/
def bmSeq (value : Nat) : Array Nat :=
  (Array.range 32).map fun i => if value.testBit i then 1 else 0

/-- The discrepancy `d = seq[n] ^ (C[1]&seq[n-1]) ^ ... ^ (C[L]&seq[n-L])`. -/
def bmDiscrepancy (seq c : Array Nat) (n : Nat) : Nat → Nat
  | 0 => seq.getD n 0
  | i + 1 => bmDiscrepancy seq c n i ^^^ (c.getD (i + 1) 0 &&& seq.getD (n - (i + 1)) 0)

/-- The update loop `for i := 0; i < cnt; i++ { C[base+i] ^= B[i] }`. -/
def bmUpdate (b : Array Nat) (base : Nat) : Nat → Array Nat → Array Nat
  | 0, c => c
  | k + 1, c =>
    let c' := bmUpdate b base k c
    c'.setD (base + k) (c'.getD (base + k) 0 ^^^ b.getD k 0)

/-- The Berlekamp-Massey loop state `(L, m, C, B)`; `m` starts at `-1`. -/
structure BMState where
  l : Nat
  m : ℤ
  c : Array Nat
  b : Array Nat

/-- One iteration (index `n`) of the Berlekamp-Massey main loop. -/
def bmStep (seq : Array Nat) (st : BMState) (n : Nat) : BMState :=
  let d := bmDiscrepancy seq st.c n st.l
  if d = 1 then
    let t := st.c
    let cnt := (32 - (n : ℤ) + st.m).toNat
    let base := ((n : ℤ) - st.m).toNat
    let c' := bmUpdate st.b base cnt st.c
    if st.l ≤ n / 2 then ⟨n + 1 - st.l, (n : ℤ), c', t⟩
    else ⟨st.l, st.m, c', st.b⟩
  else st

/-- Go `calculateLinearComplexity`: the minimal LFSR length via
Berlekamp-Massey over the 32-bit sequence. -/
def calculateLinearComplexity (value : Nat) : Nat :=
  let seq := bmSeq value
  let c0 := (Array.mkArray 32 0).setD 0 1
  ((List.range 32).foldl (bmStep seq) ⟨0, -1, c0, c0⟩).l

/-- Go `runLinearComplexityTest`. -/
noncomputable def runLinearComplexityTest (value : Nat) : StatisticalTest :=
  let complexity := calculateLinearComplexity value
  let expectedComplexity : ℝ := 16
  let deviation := |(complexity : ℝ) - expectedComplexity|
  { name := "Linear Complexity Test"
    score := 1 - deviation / expectedComplexity
    passed := 12 ≤ complexity }

/-- Go `runAllStatisticalTests`: the five tests.  In the source they run
concurrently and are appended under a mutex in nondeterministic order; the
collection is modelled in the order of the `testFuncs` table (every use in
the claims is order-independent). -/
noncomputable def runAllStatisticalTests (value : Nat) : List StatisticalTest :=
  [runBitFrequencyTest value, runRunsTest value, runSerialTest value,
   runAutoCorrelationTest value, runLinearComplexityTest value]

/-! ## Weak-key tests and the candidate validator (`generator.go`) -/

/-- The six canonical low-complexity patterns of `hasSimpleBitPattern`. -/
def simplePatterns : List Nat :=
  [0xAAAAAAAA, 0x55555555, 0x33333333, 0xCCCCCCCC, 0x0F0F0F0F, 0xF0F0F0F0]

/-- Go `hasSimpleBitPattern`: equality with a canonical pattern or its
`uint32` bitwise complement (`^pattern` in Go is XOR with `0xFFFFFFFF`). -/
def hasSimpleBitPattern (value : Nat) : Bool :=
  simplePatterns.any fun p => value == p || value == p ^^^ 0xFFFFFFFF

/-- Go `runWeakKeyTests`: low-Hamming-weight flag and simple-pattern flag. -/
def runWeakKeyTests (value : Nat) : List WeakKeyTest :=
  [{ pattern := "Low Hamming Weight", passed := decide (12 ≤ ones32 value) },
   { pattern := "Simple Bit Pattern", passed := !hasSimpleBitPattern value }]

/-- Go `validateCandidate`: the acceptance gate.  The Go function returns
`false` as soon as one of the five checks fails, and `true` otherwise; its
return value is therefore the conjunction of the negations of the five
rejection conditions. -/
def validateCandidate (cfg : Config) (c : ConstantCandidate) : Prop :=
  ¬(c.bitDistribution < cfg.minBitDistribution ∨
      cfg.maxBitDistribution < c.bitDistribution) ∧
  ¬(c.avalancheScore < cfg.minAvalancheScore) ∧
  ¬(c.hammingWeight < 12 ∨ 20 < c.hammingWeight) ∧
  ¬(c.entropyScore < 3 / 2) ∧
  ∀ t ∈ c.testResults.weakKeyTests, t.passed = true

/-- Go `runTests`: assembles `TestResults` for a candidate.  The primality
entry records `isPrime` (total, see C10); the avalanche entry re-runs the
randomized avalanche measurement, passed in here as `avalancheRetest`;
statistical tests are included when enabled in the config.  The Go
`Changes` field truncates `score * total` to an integer, modelled by the
floor (the score is nonnegative). -/
noncomputable def runTests (cfg : Config) (value : Nat) (avalancheRetest : ℝ) :
    TestResults :=
  { primalityTests := [{ method := "Miller-Rabin", passed := (isPrime value).getD false }]
    avalancheTests :=
      [{ score := avalancheRetest
         changes := ⌊avalancheRetest * ((cfg.avalancheTestCases * 128 : ℤ) : ℝ)⌋
         total := cfg.avalancheTestCases * 128 }]
    statisticalTests :=
      if cfg.statisticalAnalysis then runAllStatisticalTests value else []
    weakKeyTests := runWeakKeyTests value }

/-- Go `generateCandidate`, as a function of its two random inputs: the
sampled prime `value` and the randomized avalanche measurements
(`avalanche` for the candidate field, `avalancheRetest` for the re-run
inside `runTests`).  Every field the candidate carries is determined by
the source from these. -/
noncomputable def generateCandidate (cfg : Config) (value : Nat)
    (avalanche avalancheRetest : ℝ) : ConstantCandidate :=
  { value := value
    bitDistribution := calculateBitDistribution value
    avalancheScore := avalanche
    hammingWeight := ones32 value
    entropyScore := calculateEntropy value
    testResults := runTests cfg value avalancheRetest }

/-! ## Pair selection (`generator.go`: `areSufficientlyDifferent`,
`selectBestConstants`) -/

/-- Go `areSufficientlyDifferent`: Hamming distance at least 12, and `a` not
equal to any Go `uint32` left or right *shift* of `b` by `1..31` (the
loop tests `a.Value == b.Value<<i || a.Value == b.Value>>i`). -/
def areSufficientlyDifferent (a b : ConstantCandidate) : Bool :=
  if ones32 (a.value ^^^ b.value) < 12 then false
  else
    (List.range' 1 31).all fun i =>
      !(a.value == shiftl32 b.value i || a.value == b.value >>> i)

/-- Go `selectBestConstants`, applied to the candidate list *after* the
`sort.Slice` by descending composite score (the sort itself is
nondeterministic on ties; theorems quantify over any permutation that is
sorted by `calculateScore`).  `none` models the
`panic("insufficient candidates")` branch; otherwise the top scorer is
`P`, and the first remaining candidate that is sufficiently different is
`Q`, with `scored[1]` as the fallback. -/
def selectBestConstants (scored : List ConstantCandidate) :
    Option (ConstantCandidate × ConstantCandidate) :=
  match scored with
  | p :: second :: rest =>
    some
      (match (second :: rest).find? (fun c => areSufficientlyDifferent p c) with
       | some q => (p, q)
       | none => (p, second))
  | _ => none

/-- The postcondition of the Go `sort.Slice(scored, score[i] > score[j])`:
scores are nonincreasing along the list. -/
def sortedByScore (l : List ConstantCandidate) : Prop :=
  l.Pairwise fun a b => calculateScore b ≤ calculateScore a

/-- The difference constraint as the specification words it: Hamming
distance at least 12, and `b` not equal to any left or right bit-*rotation*
of `a` by `1..31` positions. -/
def specDiffConstraint (a b : ConstantCandidate) : Prop :=
  12 ≤ ones32 (a.value ^^^ b.value) ∧
  ∀ k < 32, 1 ≤ k → b.value ≠ rotl32 a.value k ∧ b.value ≠ rotr32 a.value k

/-! ## Run orchestration (`generator.go`: `worker`, `Generate`,
`processResults`, `validateSelectedConstants`, `runFinalValidation`) -/

/-- The per-attempt worker errors of the error taxonomy. -/
inductive WorkerError where
  | primeSearchExhausted
  | randomSourceFailure
deriving DecidableEq

/-- The outcome of one `generateCandidate` call inside the worker loop. -/
inductive AttemptResult where
  | ok (c : ConstantCandidate)
  | err (e : WorkerError)

/-- Run-level errors returned by `Generate` (the wall-clock timeout branch
is not modelled). -/
inductive GenError where
  | configInvalid
  | workerError (e : WorkerError)
  | insufficientCandidates
  | panicked
  | invalidSelectedConstants
  | finalValidationFailed
deriving DecidableEq

open Classical in
/-- The `worker` loop over its batch of attempts: a failed attempt emits
its error and the loop continues; a generated candidate is emitted exactly
when `validateCandidate` accepts it.  Returns the emitted candidates and
errors, in loop order. -/
noncomputable def workerRun (cfg : Config) :
    List AttemptResult → List ConstantCandidate × List WorkerError
  | [] => ([], [])
  | .err e :: rest =>
    let p := workerRun cfg rest
    (p.1, e :: p.2)
  | .ok c :: rest =>
    let p := workerRun cfg rest
    (if validateCandidate cfg c then c :: p.1 else p.1, p.2)

/-- Go `isValidBitDistribution`. -/
def isValidBitDistribution (cfg : Config) (c : ConstantCandidate) : Prop :=
  cfg.minBitDistribution ≤ c.bitDistribution ∧
  c.bitDistribution ≤ cfg.maxBitDistribution

/-- Go `validateSelectedConstants`: nonzero values, minimum avalanche scores,
bit-distribution ranges, and primality of both selected constants. -/
def validateSelectedConstants (cfg : Config) (p q : ConstantCandidate) : Prop :=
  ¬(p.value = 0 ∨ q.value = 0) ∧
  ¬(p.avalancheScore < cfg.minAvalancheScore ∨
      q.avalancheScore < cfg.minAvalancheScore) ∧
  (isValidBitDistribution cfg p ∧ isValidBitDistribution cfg q) ∧
  (isPrime p.value = some true ∧ isPrime q.value = some true)

open Classical in
/-- The count of failing statistical tests used by `verifyTestResults`. -/
noncomputable def failedCount : List StatisticalTest → Nat
  | [] => 0
  | t :: rest => (if t.passed then 0 else 1) + failedCount rest

/-- Go `verifyTestResults`: at most 20% of the tests may fail
(`failedTests <= len(tests)/5` with Go integer division). -/
def verifyTestResults (tests : List StatisticalTest) : Prop :=
  failedCount tests ≤ tests.length / 5

/-- Go `runFinalValidation`: re-run the statistical suite on both selected
values, require both to verify, and require the pair to remain
sufficiently different. -/
def runFinalValidation (cfg : Config) (p q : ConstantCandidate) : Prop :=
  verifyTestResults (runAllStatisticalTests p.value) ∧
  verifyTestResults (runAllStatisticalTests q.value) ∧
  areSufficientlyDifferent p q = true

open Classical in
/-- Go `Generate`, as a function of the collected outcomes of a finished run:
the worker errors drained from the error channel (in channel order), the
accepted candidates drained from the candidate channel (`pool`), and the
pool as ordered by the score sort (`sorted`, a permutation of `pool` —
theorems carry that hypothesis where it matters).  In source order:
configuration validation; any drained worker error aborts the run; fewer
than two candidates aborts the run; then `processResults` =
`selectBestConstants` (whose panic is `GenError.panicked`) followed by
`validateSelectedConstants` and `runFinalValidation`.  The timeout branch
and the result-file write are not modelled. -/
noncomputable def generateRun (cfg : Config) (workerErrors : List WorkerError)
    (pool sorted : List ConstantCandidate) :
    Except GenError (ConstantCandidate × ConstantCandidate) :=
  if configValid cfg then
    match workerErrors with
    | e :: _ => .error (.workerError e)
    | [] =>
      if pool.length < 2 then .error .insufficientCandidates
      else
        match selectBestConstants sorted with
        | none => .error .panicked
        | some (p, q) =>
          if validateSelectedConstants cfg p q then
            if runFinalValidation cfg p q then .ok (p, q)
            else .error .finalValidationFailed
          else .error .invalidSelectedConstants
  else .error .configInvalid

/-! ## Concrete values used to instantiate the theorems -/

/-- The default configuration of `DefaultConfig()` (config.go), restricted
to the modelled fields. -/
noncomputable def defaultCfg : Config :=
  { numCandidates := 1000
    avalancheTestCases := 10000
    minPrimeAttempts := 100
    maxPrimeAttempts := 10000
    parallelWorkers := 8
    minBitDistribution := 0.45
    maxBitDistribution := 0.55
    minAvalancheScore := 0.49
    statisticalAnalysis := true }

/-- A configuration with zero candidate and worker counts, as in the
"Invalid config" case of `TestGenerate`. -/
noncomputable def zeroCfg : Config :=
  { numCandidates := 0
    avalancheTestCases := 0
    minPrimeAttempts := 0
    maxPrimeAttempts := 0
    parallelWorkers := 0
    minBitDistribution := 0.45
    maxBitDistribution := 0.55
    minAvalancheScore := 0.49
    statisticalAnalysis := true }

/-- Empty test results, for candidates built directly in examples. -/
def noTests : TestResults :=
  { primalityTests := []
    avalancheTests := []
    statisticalTests := []
    weakKeyTests := [] }

/-- An example candidate on the RC6 constant `P = 0xB7E15163`
(Hamming weight 17), with scores that pass every validator gate of
`defaultCfg` and weak-key results as `runWeakKeyTests` produces them. -/
noncomputable def candP : ConstantCandidate :=
  { value := 0xB7E15163
    bitDistribution := 0.5
    avalancheScore := 0.5
    hammingWeight := 17
    entropyScore := 2
    testResults :=
      { primalityTests := []
        avalancheTests := []
        statisticalTests := []
        weakKeyTests := runWeakKeyTests 0xB7E15163 } }

/-- An example candidate on the RC6 constant `Q = 0x9E3779B9`
(Hamming weight 20), likewise passing every validator gate. -/
noncomputable def candQ : ConstantCandidate :=
  { value := 0x9E3779B9
    bitDistribution := 0.5
    avalancheScore := 0.5
    hammingWeight := 20
    entropyScore := 2
    testResults :=
      { primalityTests := []
        avalancheTests := []
        statisticalTests := []
        weakKeyTests := runWeakKeyTests 0x9E3779B9 } }

/-- Pool entry `A = 0xB7E15163` for the selector theorems; all selector
pool entries share the same score fields, so every ordering is sorted. -/
noncomputable def candA : ConstantCandidate :=
  { value := 0xB7E15163
    bitDistribution := 0.5
    avalancheScore := 0.5
    hammingWeight := 17
    entropyScore := 1
    testResults := noTests }

/-- Pool entry `B = 0x6FC2A2C7`, the left rotation of `A` by one bit:
Hamming distance 16 from `A`, and not a plain shift of `A`. -/
noncomputable def candB : ConstantCandidate :=
  { value := 0x6FC2A2C7
    bitDistribution := 0.5
    avalancheScore := 0.5
    hammingWeight := 17
    entropyScore := 1
    testResults := noTests }

/-- Pool entry `C = 0x9E3779B9`: Hamming distance 15 from `A`, related to
`A` by neither rotation nor shift. -/
noncomputable def candC : ConstantCandidate :=
  { value := 0x9E3779B9
    bitDistribution := 0.5
    avalancheScore := 0.5
    hammingWeight := 20
    entropyScore := 1
    testResults := noTests }

/-! ## Theorems

Claims C1 and C10: the prime sampler -/

/-- Claim C1. The claim that `isPrime` returns true exactly on the primes below
`2 ^ 32`, with "the witness exponentiation and repeated squarings being
computed with 64-bit intermediate accumulation so that no step overflows",
fails on the code: the repeated squaring in `millerRabinTest` is performed
on `uint32` values, so `x * x` wraps modulo `2 ^ 32`.  At `n = 66749`
(a prime, with `n - 1 = 16687 * 2 ^ 2`) the witness `a = 2` reaches
`x = 65932`, whose true square is `n - 1` modulo `n`, but the wrapped
square is `63857`; the witness is rejected and the prime is reported
composite. -/
theorem isPrime_66749_false_but_prime :
    isPrime 66749 = some false ∧ Nat.Prime 66749 := by
  constructor
  · decide
  · norm_num

theorem modPow_ne_none (base exp m : Nat) (h : m ≠ 0) : modPow base exp m ≠ none := by
  simp [modPow, h]

theorem millerRabinTest_ne_none (n d r a : Nat) (h : n ≠ 0) :
    millerRabinTest n d r a ≠ none := by
  unfold millerRabinTest
  split
  · simp
  · split
    · rename_i heq
      exact absurd heq (modPow_ne_none a d n h)
    · split <;> simp

theorem mrBases_ne_none (n d r : Nat) (h : n ≠ 0) :
    ∀ l : List Nat, mrBases n d r l ≠ none := by
  intro l
  induction l with
  | nil => simp [mrBases]
  | cons a rest ih =>
    unfold mrBases
    rcases ht : millerRabinTest n d r a with _ | b
    · exact absurd ht (millerRabinTest_ne_none n d r a h)
    · cases b <;> simp [ih]

/-- Claim C10. `modPow` panics (returns `none`) exactly when its modulus is
`0`, and every call reachable from `isPrime` has modulus `n ≥ 5` (the
boundary cases return first), so `isPrime` is total: it never propagates
the panic. -/
theorem modPow_panics_iff_zero_and_isPrime_total :
    (∀ base exp m : Nat, modPow base exp m = none ↔ m = 0) ∧
    ∀ n : Nat, (isPrime n).isSome = true := by
  constructor
  · intro base exp m
    constructor
    · intro h
      by_contra hm
      exact modPow_ne_none base exp m hm h
    · intro h
      simp [modPow, h]
  · intro n
    unfold isPrime
    split
    · simp
    · split
      · simp
      · rename_i h1 _
        have hn : n ≠ 0 := by
          intro h0
          exact h1 (by omega)
        rcases hb : mrBases n (oddFactor (n - 1) (n - 1)).1 (oddFactor (n - 1) (n - 1)).2
            [2, 7, 61] with _ | b
        · exact absurd hb (mrBases_ne_none n _ _ hn _)
        · simp [hb]

/-! ### C2: binary bit entropy never reaches the validator threshold -/

theorem ones32_le_32 (v : Nat) : ones32 v ≤ 32 := by
  have h := List.countP_le_length (l := List.range 32) (p := fun i => v.testBit i)
  simpa [ones32] using h

theorem countP_not_eq_length_sub (p : Nat → Bool) (l : List Nat) :
    l.countP (fun i => !(p i)) = l.length - l.countP p := by
  induction l with
  | nil => simp
  | cons a t ih =>
    have hle := List.countP_le_length (l := t) (p := p)
    cases ha : p a <;>
      simp [List.countP_cons, ha, ih] <;> omega

theorem calculateEntropy_le_one (v : Nat) : calculateEntropy v ≤ 1 := by
  have hk32 : ones32 v ≤ 32 := ones32_le_32 v
  unfold calculateEntropy
  by_cases h0 : 0 < ones32 v
  · by_cases h32 : ones32 v < 32
    · rw [if_pos h0, if_pos h32]
      have hlog2 : (0 : ℝ) < Real.log 2 := Real.log_pos one_lt_two
      have harg : ((32 : ℝ) - (ones32 v : ℝ)) / 32 = 1 - (ones32 v : ℝ) / 32 := by
        ring
      rw [harg]
      have hEq :
          -((ones32 v : ℝ) / 32 * Real.logb 2 ((ones32 v : ℝ) / 32)) +
            -((1 - (ones32 v : ℝ) / 32) * Real.logb 2 (1 - (ones32 v : ℝ) / 32)) =
          Real.binEntropy ((ones32 v : ℝ) / 32) / Real.log 2 := by
        rw [Real.binEntropy, Real.logb, Real.logb, Real.log_inv, Real.log_inv]
        field_simp
        ring
      rw [hEq, div_le_one hlog2]
      exact Real.binEntropy_le_log_two
    · -- every bit set: only the `true` bin is present
      have h : ones32 v = 32 := le_antisymm hk32 (le_of_not_lt h32)
      rw [if_pos h0, if_neg h32, h]
      norm_num
  · -- no bit set: only the `false` bin is present
    have h : ones32 v = 0 := by omega
    rw [if_neg h0, if_pos (by omega : ones32 v < 32), h]
    norm_num

/-- Claim C2. `calculateEntropy` is the binary Shannon entropy of the bit
frequencies and never exceeds `1.0`; `validateCandidate` rejects any
candidate whose `EntropyScore` is below `1.5`, and every candidate that
`generateCandidate` builds carries `EntropyScore = calculateEntropy value`
— so no generated candidate is ever accepted into the pool. -/
theorem no_generated_candidate_accepted :
    (∀ v : Nat, calculateEntropy v ≤ 1) ∧
    ∀ (cfg : Config) (value : Nat) (av avRe : ℝ),
      ¬ validateCandidate cfg (generateCandidate cfg value av avRe) := by
  refine ⟨calculateEntropy_le_one, ?_⟩
  intro cfg value av avRe hval
  have h4 : ¬ (generateCandidate cfg value av avRe).entropyScore < 3 / 2 :=
    hval.2.2.2.1
  apply h4
  have hfield : (generateCandidate cfg value av avRe).entropyScore =
      calculateEntropy value := rfl
  rw [hfield]
  have := calculateEntropy_le_one value
  linarith

theorem no_generated_candidate_accepted_witness :
    calculateEntropy 5 ≤ 1 ∧
    ¬ validateCandidate defaultCfg (generateCandidate defaultCfg 5 (1 / 2) (1 / 2)) :=
  ⟨no_generated_candidate_accepted.1 5,
   no_generated_candidate_accepted.2 defaultCfg 5 (1 / 2) (1 / 2)⟩

/-! ### C8: bit-frequency score is symmetric under complement -/

theorem ones32_xor_mask (v : Nat) :
    ones32 (v ^^^ 0xFFFFFFFF) = 32 - ones32 v := by
  unfold ones32
  have hmask : (0xFFFFFFFF : Nat) = 2 ^ 32 - 1 := by norm_num
  have hcongr :
      (List.range 32).countP (fun i => (v ^^^ 0xFFFFFFFF).testBit i) =
      (List.range 32).countP (fun i => !(v.testBit i)) := by
    apply List.countP_congr
    intro i hi
    have hi32 : i < 32 := List.mem_range.mp hi
    rw [hmask, Nat.testBit_xor, Nat.testBit_two_pow_sub_one]
    simp [hi32, Bool.xor_true]
  rw [hcongr, countP_not_eq_length_sub]
  simp

/-- Claim C8. The bit-frequency (monobit) score is symmetric under bitwise
complement: for every 32-bit value `v`, `runBitFrequencyTest(v).Score`
equals `runBitFrequencyTest(^v).Score`, the score being
`1 - 2*|proportion of set bits - 0.5|`. -/
theorem runBitFrequencyTest_score_symm (v : Nat) (hv : v < 2 ^ 32) :
    (runBitFrequencyTest v).score = (runBitFrequencyTest (v ^^^ 0xFFFFFFFF)).score := by
  have hk32 : ones32 v ≤ 32 := ones32_le_32 v
  simp only [runBitFrequencyTest, ones32_xor_mask]
  have hcast : ((32 - ones32 v : Nat) : ℝ) = 32 - (ones32 v : ℝ) := by
    push_cast [Nat.cast_sub hk32]
    ring
  rw [hcast]
  have harg : ((32 : ℝ) - (ones32 v : ℝ)) / 32 - 0.5 =
      -((ones32 v : ℝ) / 32 - 0.5) := by ring
  rw [harg, abs_neg]

theorem runBitFrequencyTest_score_symm_witness :
    (5 : Nat) < 2 ^ 32 ∧
    (runBitFrequencyTest 5).score = (runBitFrequencyTest (5 ^^^ 0xFFFFFFFF)).score :=
  ⟨by norm_num, runBitFrequencyTest_score_symm 5 (by norm_num)⟩

/-! ### C5: the validator is exactly the conjunction of its gates -/

theorem weakKeyTests_pass_iff (v : Nat) :
    (∀ t ∈ runWeakKeyTests v, t.passed = true) ↔
    (12 ≤ ones32 v ∧ hasSimpleBitPattern v = false) := by
  simp [runWeakKeyTests]

/-- Claim C5. `validateCandidate` returns `false` exactly when at least one
gate fails — bit distribution outside
`[MinBitDistribution, MaxBitDistribution]`, avalanche score below
`MinAvalancheScore`, Hamming weight outside `[12, 20]`, entropy score
below `1.5`, or a failing weak-key test (Hamming weight of the value below
12, or equality with one of the six canonical patterns or their bitwise
complements) — and returns `true` when every gate passes.  The weak-key
results are those that `runWeakKeyTests` attaches to the value. -/
theorem validateCandidate_false_iff_gate_fails :
    ∀ (cfg : Config) (c : ConstantCandidate),
      c.testResults.weakKeyTests = runWeakKeyTests c.value →
      (¬ validateCandidate cfg c ↔
        (c.bitDistribution < cfg.minBitDistribution ∨
         cfg.maxBitDistribution < c.bitDistribution ∨
         c.avalancheScore < cfg.minAvalancheScore ∨
         c.hammingWeight < 12 ∨ 20 < c.hammingWeight ∨
         c.entropyScore < 3 / 2 ∨
         ones32 c.value < 12 ∨ hasSimpleBitPattern c.value = true)) := by
  intro cfg c h
  unfold validateCandidate
  rw [h, weakKeyTests_pass_iff]
  constructor
  · intro hn
    by_contra hd
    push_neg at hd
    obtain ⟨h1, h2, h3, h4, h5, h6, h7, h8⟩ := hd
    exact hn ⟨by push_neg; exact ⟨h1, h2⟩, by push_neg; exact h3,
      by push_neg; exact ⟨h4, h5⟩, by push_neg; exact h6,
      h7, by simpa using h8⟩
  · intro hd hc
    obtain ⟨h1, h2, h3, h4, h5, h6⟩ := hc
    push_neg at h1 h2 h3 h4
    rcases hd with h | h | h | h | h | h | h | h
    · exact absurd h1.1 (not_le.mpr h)
    · exact absurd h1.2 (not_le.mpr h)
    · exact absurd h2 (not_le.mpr h)
    · exact absurd h3.1 (not_le.mpr h)
    · exact absurd h3.2 (not_le.mpr h)
    · exact absurd h4 (not_le.mpr h)
    · exact absurd h5 (by omega)
    · rw [h6] at h
      exact Bool.false_ne_true h

theorem validateCandidate_false_iff_gate_fails_witness :
    ¬ validateCandidate defaultCfg candP ↔
      (candP.bitDistribution < defaultCfg.minBitDistribution ∨
       defaultCfg.maxBitDistribution < candP.bitDistribution ∨
       candP.avalancheScore < defaultCfg.minAvalancheScore ∨
       candP.hammingWeight < 12 ∨ 20 < candP.hammingWeight ∨
       candP.entropyScore < 3 / 2 ∨
       ones32 candP.value < 12 ∨ hasSimpleBitPattern candP.value = true) :=
  validateCandidate_false_iff_gate_fails defaultCfg candP rfl

/-! ### C6: configuration validation fails fast -/

/-- Claim C6. For every configuration with candidate count `0` or worker
count `0`, `Generate` returns the `ConfigInvalid` error whatever the
workers would have produced (so before any generation work counts); and
the validation rejects exactly the configurations with a non-positive
candidate or worker count, an inverted bit-distribution range, or an
avalanche threshold outside `[0, 1]`. -/
theorem generate_rejects_invalid_config :
    (∀ (cfg : Config) (errors : List WorkerError)
        (pool sorted : List ConstantCandidate),
      cfg.numCandidates = 0 ∨ cfg.parallelWorkers = 0 →
      generateRun cfg errors pool sorted = .error .configInvalid) ∧
    ∀ cfg : Config,
      ¬ configValid cfg ↔
        (cfg.numCandidates < 1 ∨ cfg.parallelWorkers < 1 ∨
         cfg.maxBitDistribution ≤ cfg.minBitDistribution ∨
         cfg.minAvalancheScore < 0 ∨ 1 < cfg.minAvalancheScore) := by
  constructor
  · intro cfg errors pool sorted h
    have hnc : ¬ configValid cfg := by
      intro hc
      rcases h with h | h
      · have h1 : 1 ≤ cfg.numCandidates := hc.1
        omega
      · have h2 : 1 ≤ cfg.parallelWorkers := hc.2.1
        omega
    unfold generateRun
    rw [if_neg hnc]
  · intro cfg
    unfold configValid
    constructor
    · intro hn
      by_contra hd
      push_neg at hd
      exact hn ⟨hd.1, hd.2.1, hd.2.2.1, hd.2.2.2.1, hd.2.2.2.2⟩
    · intro hd hc
      obtain ⟨h1, h2, h3, h4, h5⟩ := hc
      rcases hd with h | h | h | h | h
      · omega
      · omega
      · exact absurd h3 (not_lt.mpr h)
      · exact absurd h4 (not_le.mpr h)
      · exact absurd h5 (not_le.mpr h)

theorem generate_rejects_invalid_config_witness :
    generateRun zeroCfg [] [] [] = .error .configInvalid :=
  generate_rejects_invalid_config.1 zeroCfg [] [] [] (Or.inl rfl)

/-! ### C3: the pair selector -/

theorem areSufficientlyDifferent_iff (a b : ConstantCandidate) :
    areSufficientlyDifferent a b = true ↔
    (12 ≤ ones32 (a.value ^^^ b.value) ∧
     ∀ k < 32, 1 ≤ k →
       a.value ≠ shiftl32 b.value k ∧ a.value ≠ b.value >>> k) := by
  unfold areSufficientlyDifferent
  split
  · rename_i hlt
    constructor
    · intro h
      exact absurd h (by simp)
    · intro h
      exact absurd h.1 (not_le.mpr hlt)
  · rename_i hge
    rw [List.all_eq_true]
    constructor
    · intro hall
      refine ⟨not_lt.mp hge, ?_⟩
      intro k hk32 hk1
      have hk : k ∈ List.range' 1 31 := by
        rw [List.mem_range'_1]
        omega
      have h := hall k hk
      simpa using h
    · rintro ⟨-, hks⟩ i hi
      rw [List.mem_range'_1] at hi
      have h := hks i (by omega) (by omega)
      simpa using h

/-- Claim C3, amended. For every sorted pool (any permutation of the
candidate pool that is nonincreasing in composite score) whose top scorer
is `P`, if some remaining candidate is sufficiently different from `P` in
the sense the code checks, then `selectBestConstants` returns `(P, Q)`
with Hamming distance `popcount(P XOR Q) ≥ 12` and `P` not equal to any
left or right `uint32` *shift* of `Q` by `1..31` positions.  (The
rotation-freedom guarantee of the original claim fails, see the
counterexample: the code compares against shifts, not rotations.) -/
theorem selectBestConstants_first_sufficiently_different
    (pool sorted : List ConstantCandidate)
    (p : ConstantCandidate) (rest : List ConstantCandidate)
    (hperm : sorted.Perm pool) (hsort : sortedByScore sorted)
    (hshape : sorted = p :: rest)
    (hex : ∃ c ∈ rest, areSufficientlyDifferent p c = true) :
    ∃ q, selectBestConstants sorted = some (p, q) ∧
      12 ≤ ones32 (p.value ^^^ q.value) ∧
      ∀ k < 32, 1 ≤ k →
        p.value ≠ shiftl32 q.value k ∧ p.value ≠ q.value >>> k := by
  obtain ⟨c, hc, hcd⟩ := hex
  cases rest with
  | nil => cases hc
  | cons b rest' =>
    subst hshape
    have hsome :
        ((b :: rest').find? fun c => areSufficientlyDifferent p c).isSome := by
      rw [List.find?_isSome]
      exact ⟨c, hc, hcd⟩
    obtain ⟨q, hq⟩ := Option.isSome_iff_exists.mp hsome
    have hpq : areSufficientlyDifferent p q = true := List.find?_some hq
    have hchar := (areSufficientlyDifferent_iff p q).mp hpq
    refine ⟨q, ?_, hchar.1, hchar.2⟩
    simp only [selectBestConstants]
    rw [hq]

theorem selectBestConstants_first_sufficiently_different_witness :
    ∃ q, selectBestConstants [candA, candC] = some (candA, q) ∧
      12 ≤ ones32 (candA.value ^^^ q.value) ∧
      ∀ k < 32, 1 ≤ k →
        candA.value ≠ shiftl32 q.value k ∧ candA.value ≠ q.value >>> k :=
  selectBestConstants_first_sufficiently_different [candA, candC] [candA, candC]
    candA [candC] (List.Perm.refl _)
    (by
      unfold sortedByScore
      refine List.Pairwise.cons ?_ (List.pairwise_singleton _ _)
      intro a' ha'
      have h : a' = candC := by simpa using ha'
      subst h
      exact le_of_eq rfl)
    rfl ⟨candC, List.Mem.head _, by decide⟩

/-- Claim C3, counterexample. The claim as stated is false: the pool
`[A, B, C]` with `A = 0xB7E15163`, `B = rotl(A, 1) = 0x6FC2A2C7` and
`C = 0x9E3779B9` (equal composite scores, so the list is sorted) contains
the pair `(A, C)` satisfying the rotation-based difference constraint,
yet `selectBestConstants` returns `(A, B)` — and `B` *is* the left
rotation of `A` by one position (the code only excludes shifts, and
`popcount(A XOR B) = 16 ≥ 12`). -/
theorem selectBestConstants_returns_rotation :
    2 ≤ ([candA, candB, candC] : List ConstantCandidate).length ∧
    sortedByScore [candA, candB, candC] ∧
    candA ∈ [candA, candB, candC] ∧ candC ∈ [candA, candB, candC] ∧
    specDiffConstraint candA candC ∧
    selectBestConstants [candA, candB, candC] = some (candA, candB) ∧
    candB.value = rotl32 candA.value 1 ∧
    ¬ specDiffConstraint candA candB := by
  refine ⟨by norm_num, ?_, List.Mem.head _,
    List.Mem.tail _ (List.Mem.tail _ (List.Mem.head _)),
    by unfold specDiffConstraint; decide, rfl, by decide,
    by unfold specDiffConstraint; decide⟩
  unfold sortedByScore
  refine List.Pairwise.cons ?_ (List.Pairwise.cons ?_ (List.pairwise_singleton _ _))
  · intro a' ha'
    have h : a' = candB ∨ a' = candC := by simpa using ha'
    rcases h with h | h <;> subst h <;> exact le_of_eq rfl
  · intro a' ha'
    have h : a' = candC := by simpa using ha'
    subst h
    exact le_of_eq rfl

/-! ### C4, C7, C9: the orchestrated run -/

theorem defaultCfg_valid : configValid defaultCfg := by
  unfold configValid defaultCfg
  norm_num

theorem candP_accepted : validateCandidate defaultCfg candP := by
  unfold validateCandidate
  refine ⟨?_, ?_, ?_, ?_, ?_⟩
  · show ¬((0.5 : ℝ) < 0.45 ∨ (0.55 : ℝ) < 0.5)
    norm_num
  · show ¬((0.5 : ℝ) < 0.49)
    norm_num
  · show ¬((17 : ℕ) < 12 ∨ 20 < (17 : ℕ))
    norm_num
  · show ¬((2 : ℝ) < 3 / 2)
    norm_num
  · show ∀ t ∈ runWeakKeyTests 0xB7E15163, t.passed = true
    decide

theorem candQ_accepted : validateCandidate defaultCfg candQ := by
  unfold validateCandidate
  refine ⟨?_, ?_, ?_, ?_, ?_⟩
  · show ¬((0.5 : ℝ) < 0.45 ∨ (0.55 : ℝ) < 0.5)
    norm_num
  · show ¬((0.5 : ℝ) < 0.49)
    norm_num
  · show ¬((20 : ℕ) < 12 ∨ 20 < (20 : ℕ))
    norm_num
  · show ¬((2 : ℝ) < 3 / 2)
    norm_num
  · show ∀ t ∈ runWeakKeyTests 0x9E3779B9, t.passed = true
    decide

/-- Claim C4, amended. A `PrimeSearchExhausted` failure of one worker
attempt is discarded by the worker itself, which keeps processing its
batch — but it is *not* non-fatal to the run: the error is emitted to the
error channel, and after all workers finish `Generate` returns a worker
error, regardless of how many candidates were accepted. -/
theorem primeSearchExhausted_fatal_to_run :
    ∀ (cfg : Config) (rest : List AttemptResult) (es : List WorkerError)
      (pool sorted : List ConstantCandidate),
      configValid cfg →
      workerRun cfg (AttemptResult.err WorkerError.primeSearchExhausted :: rest) =
        ((workerRun cfg rest).1,
          WorkerError.primeSearchExhausted :: (workerRun cfg rest).2) ∧
      generateRun cfg (WorkerError.primeSearchExhausted :: es) pool sorted =
        .error (.workerError .primeSearchExhausted) := by
  intro cfg rest es pool sorted hcfg
  constructor
  · simp [workerRun]
  · unfold generateRun
    rw [if_pos hcfg]

theorem primeSearchExhausted_fatal_to_run_witness :
    workerRun defaultCfg [AttemptResult.err WorkerError.primeSearchExhausted] =
      ([], [WorkerError.primeSearchExhausted]) ∧
    generateRun defaultCfg [WorkerError.primeSearchExhausted] [] [] =
      .error (.workerError .primeSearchExhausted) := by
  have h := primeSearchExhausted_fatal_to_run defaultCfg [] [] [] [] defaultCfg_valid
  simpa [workerRun] using h

/-- Claim C4, counterexample. The claim as stated is false: with two
accepted candidates in the pool and a single `PrimeSearchExhausted`
attempt failure on the error channel, `Generate` does not return a
successful result — it returns the worker error. -/
theorem generate_fails_despite_two_accepted :
    configValid defaultCfg ∧
    validateCandidate defaultCfg candP ∧ validateCandidate defaultCfg candQ ∧
    2 ≤ ([candP, candQ] : List ConstantCandidate).length ∧
    generateRun defaultCfg [WorkerError.primeSearchExhausted] [candP, candQ]
        [candP, candQ] =
      .error (.workerError .primeSearchExhausted) := by
  refine ⟨defaultCfg_valid, candP_accepted, candQ_accepted, by norm_num, ?_⟩
  unfold generateRun
  rw [if_pos defaultCfg_valid]

/-- Claim C7, amended. When all workers finish without emitting any error
and fewer than 2 candidates were accepted, `Generate` (with a valid
configuration) returns the `InsufficientCandidates` error; and with fewer
than 2 accepted candidates no `GenerationResult` is ever produced,
whatever errors were emitted. -/
theorem fewer_than_two_candidates_fails :
    (∀ (cfg : Config) (pool sorted : List ConstantCandidate),
      configValid cfg → pool.length < 2 →
      generateRun cfg [] pool sorted = .error .insufficientCandidates) ∧
    ∀ (cfg : Config) (errors : List WorkerError)
      (pool sorted : List ConstantCandidate) (p q : ConstantCandidate),
      pool.length < 2 → generateRun cfg errors pool sorted ≠ .ok (p, q) := by
  constructor
  · intro cfg pool sorted hcfg hlen
    unfold generateRun
    rw [if_pos hcfg]
    show (if pool.length < 2 then _ else _) = _
    rw [if_pos hlen]
  · intro cfg errors pool sorted p q hlen
    unfold generateRun
    by_cases hc : configValid cfg
    · rw [if_pos hc]
      cases errors with
      | cons e es => simp
      | nil =>
        show (if pool.length < 2 then _ else _) ≠ _
        rw [if_pos hlen]
        simp
    · rw [if_neg hc]
      simp

theorem fewer_than_two_candidates_fails_witness :
    generateRun defaultCfg [] [] [] = .error .insufficientCandidates :=
  fewer_than_two_candidates_fails.1 defaultCfg [] [] defaultCfg_valid (by norm_num)

/-- Claim C7, counterexample. The claim as stated is false: in a run whose
pool holds exactly one accepted candidate but whose error channel holds a
worker error, `Generate` returns the worker error, not
`InsufficientCandidates`. -/
theorem single_candidate_with_error_not_insufficient :
    configValid defaultCfg ∧ ([candP] : List ConstantCandidate).length < 2 ∧
    generateRun defaultCfg [WorkerError.primeSearchExhausted] [candP] [candP] =
      .error (.workerError .primeSearchExhausted) ∧
    GenError.workerError .primeSearchExhausted ≠ GenError.insufficientCandidates := by
  refine ⟨defaultCfg_valid, by norm_num, ?_, by simp⟩
  unfold generateRun
  rw [if_pos defaultCfg_valid]

open Classical in
/-- Claim C9. `selectBestConstants` panics (returns `none`) exactly on lists
of fewer than 2 candidates, and that branch is unreachable from
`Generate`: the run aborts with `InsufficientCandidates` before
`processResults` whenever the pool is smaller than 2, and the sorted pool
is a permutation of the collected pool, so the model never returns the
`panicked` outcome. -/
theorem selectBestConstants_panic_unreachable :
    (∀ l : List ConstantCandidate, selectBestConstants l = none ↔ l.length < 2) ∧
    ∀ (cfg : Config) (errors : List WorkerError)
      (pool sorted : List ConstantCandidate),
      sorted.Perm pool →
      generateRun cfg errors pool sorted ≠ .error .panicked := by
  have hsel : ∀ l : List ConstantCandidate,
      selectBestConstants l = none ↔ l.length < 2 := by
    intro l
    rcases l with _ | ⟨a, _ | ⟨b, t⟩⟩ <;> simp [selectBestConstants]
  refine ⟨hsel, ?_⟩
  intro cfg errors pool sorted hperm
  unfold generateRun
  by_cases hc : configValid cfg
  · rw [if_pos hc]
    cases errors with
    | cons e es => simp
    | nil =>
      by_cases hlen : pool.length < 2
      · show (if pool.length < 2 then _ else _) ≠ _
        rw [if_pos hlen]
        simp
      · show (if pool.length < 2 then _ else _) ≠ _
        rw [if_neg hlen]
        have hsl : ¬ sorted.length < 2 := by
          rw [hperm.length_eq]
          exact hlen
        rcases hsb : selectBestConstants sorted with _ | ⟨p, q⟩
        · exact absurd ((hsel sorted).mp hsb) hsl
        · show (if validateSelectedConstants cfg p q then
              if runFinalValidation cfg p q then Except.ok (p, q)
              else Except.error GenError.finalValidationFailed
            else Except.error GenError.invalidSelectedConstants) ≠
            Except.error GenError.panicked
          by_cases hv : validateSelectedConstants cfg p q
          · rw [if_pos hv]
            by_cases hf : runFinalValidation cfg p q
            · rw [if_pos hf]
              simp
            · rw [if_neg hf]
              simp
          · rw [if_neg hv]
            simp
  · rw [if_neg hc]
    simp

theorem selectBestConstants_panic_unreachable_witness :
    selectBestConstants ([] : List ConstantCandidate) = none ∧
    generateRun defaultCfg [] [candP, candQ] [candP, candQ] ≠ .error .panicked :=
  ⟨(selectBestConstants_panic_unreachable.1 []).mpr (by norm_num),
   selectBestConstants_panic_unreachable.2 defaultCfg [] [candP, candQ]
     [candP, candQ] (List.Perm.refl _)⟩

end Primer
